import Mathlib

set_option maxHeartbeats 1000000

/-! Shallow embedding of the content generation and export pipeline of the
ai_document_assistance backend (src/backend/routers/documents_router.py and
src/backend/routers/projects_router.py).  Project documents live in a
Firestore collection; a fetched document is modelled as an Option Project
(none when doc.exists is false).  Each HTTP handler is modelled as a pure
function from its inputs and the fetched document to an Except value: an ok
result carries the project state written back by doc_ref.update together with
the advanced generation-call counter, while an error result models an
HTTPException raised before any write.  Calls to the Gemini model
(model.generate_content) are modelled by an oracle indexed by a running call
counter, returning either the response text or the message of the exception
the call raised. -/

/-- One outline or slide item as stored on a project document: a JSON object
in which each of the keys id, title and order may be absent
(documents_router.py reads them with dict.get and a default). -/
structure OutlineItem where
  id : Option String
  title : Option String
  order : Option Int
deriving DecidableEq

/-- One value of the content map: the object written by generate_content
(lines 167-171) or already stored on the document; each field read back with
dict.get and a default. -/
structure ContentEntry where
  title : Option String
  content : Option String
  order : Option Int
deriving DecidableEq

/-- One element of the refinement_history list.  The three handler families
append objects of different shapes (refinement: section_id, prompt, timestamp,
type; feedback: section_id, feedback_type, comment, timestamp, type; comment:
section_id, comment, timestamp, type); absent keys are modelled as none.  The
field etype models the JSON key named type. -/
structure HistoryEntry where
  section_id : String
  prompt : Option String
  feedback_type : Option String
  comment : Option String
  timestamp : String
  etype : String
deriving DecidableEq

/-- A project document, with the fields created by create_project
(projects_router.py lines 46-57) and read by the document handlers. -/
structure Project where
  name : String
  document_type : String
  topic : String
  user_id : String
  outline : List OutlineItem
  slides : List OutlineItem
  content : List (String × ContentEntry)
  refinement_history : List HistoryEntry
  created_at : String
  updated_at : String
deriving DecidableEq

/-- An HTTPException raised by a handler: status code and detail string. -/
structure HTTPError where
  status : Nat
  detail : String
deriving DecidableEq

/-- Outcome of a handler that can fail either with an HTTPException or with an
uncaught Python NameError (an undefined global), which FastAPI surfaces as a
500 response. -/
inductive PyError where
  | http (err : HTTPError)
  | nameError (missing : String)
deriving DecidableEq

/-- Request body of POST /{project_id}/refine (documents_router.py lines
29-31). -/
structure RefinementRequest where
  section_id : String
  prompt : String
deriving DecidableEq

/-- Python dict membership: key in d, for a dict modelled as an association
list in insertion order. -/
def dictHasKey (d : List (String × α)) (key : String) : Bool :=
  d.any (fun q => q.1 = key)

/-- Python d.get(key): the value at the first (unique) occurrence of key. -/
def dictGet (d : List (String × α)) (key : String) : Option α :=
  (d.find? (fun q => q.1 = key)).map Prod.snd

/-- Python d[key] = v: update in place when the key exists (keeping its
position), otherwise append at the end, as Python dicts preserve insertion
order. -/
def dictSet (d : List (String × α)) (key : String) (v : α) : List (String × α) :=
  if dictHasKey d key then
    d.map (fun q => if q.1 = key then (key, v) else q)
  else
    d ++ [(key, v)]

/-- Python text.split(c) for a one-character separator, on the character list
of the string: splitting the empty text gives one empty piece, and a trailing
separator produces a trailing empty piece. -/
def splitOnChar (c : Char) : List Char → List (List Char)
  | [] => [[]]
  | x :: xs =>
      let r := splitOnChar c xs
      if x = c then [] :: r
      else
        match r with
        | [] => [[x]]
        | y :: ys => (x :: y) :: ys

/-- Python text.split(newline), as used on the model response at line 98. -/
def pySplitLines (s : String) : List String :=
  (splitOnChar (Char.ofNat 10) s.data).map (fun cs => String.mk cs)

/-- Python line.strip(): drop leading and trailing whitespace characters. -/
def pyStrip (s : String) : String :=
  String.mk (((s.data.dropWhile Char.isWhitespace).reverse.dropWhile Char.isWhitespace).reverse)

/-- A generation oracle standing for model.generate_content of the
google.generativeai client: given the running call index and the prompt, it
answers with the response text or with the message of the exception the call
raised. -/
def GenOracle : Type := Nat → String → Except String String

/-- The docx prompt built by generate_content_with_gemini (documents_router.py
lines 51-61); the context sentence appears only when the context string is
truthy, mirroring the conditional f-string fragment. -/
def docxContentPrompt (topic section_title context : String) : String :=
  "You are a professional document writer. Generate comprehensive content for a section titled \""
    ++ section_title ++ "\" in a document about \"" ++ topic ++ "\".\n\n"
    ++ (if context ≠ "" then "Context from previous sections: " ++ context else "") ++ "\n\n"
    ++ "Write detailed, well-structured content (approximately 300-500 words) that:\n"
    ++ "- Is informative and professional\n"
    ++ "- Flows naturally from the topic\n"
    ++ "- Uses proper grammar and formatting\n"
    ++ "- Includes relevant details and examples where appropriate\n\n"
    ++ "Do not include the section title in your response, only the content."

/-- The pptx prompt built by generate_content_with_gemini (lines 63-73). -/
def pptxContentPrompt (topic section_title context : String) : String :=
  "You are a professional presentation writer. Generate concise content for a slide titled \""
    ++ section_title ++ "\" in a presentation about \"" ++ topic ++ "\".\n\n"
    ++ (if context ≠ "" then "Context from previous slides: " ++ context else "") ++ "\n\n"
    ++ "Write clear, concise content (approximately 100-200 words) suitable for a presentation slide that:\n"
    ++ "- Is easy to read and understand\n"
    ++ "- Uses bullet points or short paragraphs\n"
    ++ "- Highlights key points\n"
    ++ "- Is engaging and informative\n\n"
    ++ "Format your response with clear structure, using bullet points where appropriate."

/-- The docx outline prompt built by generate_template_with_gemini (lines
89-91). -/
def docxTemplatePrompt (topic : String) : String :=
  "Generate a comprehensive outline for a document about \"" ++ topic ++ "\".\n"
    ++ "Provide 5-8 section titles that would make a complete, well-structured document.\n"
    ++ "Return only the section titles, one per line, without numbering or bullets."

/-- The pptx outline prompt built by generate_template_with_gemini (lines
93-95). -/
def pptxTemplatePrompt (topic : String) : String :=
  "Generate a presentation outline for a topic about \"" ++ topic ++ "\".\n"
    ++ "Provide 8-12 slide titles that would make a complete, engaging presentation.\n"
    ++ "Return only the slide titles, one per line, without numbering or bullets."

/-- The refinement prompt built by refine_content (lines 232-237). -/
def refinePrompt (instruction section_title topic original_content : String) : String :=
  "Refine the following content based on this instruction: \"" ++ instruction ++ "\"\n\n"
    ++ "Original content for section \"" ++ section_title ++ "\" in a document about \"" ++ topic ++ "\":\n"
    ++ original_content ++ "\n\n"
    ++ "Please refine the content according to the instruction while maintaining its relevance to the topic."

/-- Models generate_content_with_gemini (documents_router.py lines 42-78).
When no API key is configured it returns a static placeholder without calling
the model; otherwise it makes exactly one model call (advancing the call
index), returning the response text on success and, when the call raises, the
error string built in the except branch (line 78). -/
def generate_content_with_gemini (gemini_api_key : Option String) (oracle : GenOracle) (k : Nat)
    (topic section_title document_type context : String) : String × Nat :=
  match gemini_api_key with
  | none =>
      ("This is placeholder content for " ++ section_title
        ++ ". Please configure GEMINI_API_KEY in your environment variables.", k)
  | some _ =>
      match oracle k (if document_type = "docx" then docxContentPrompt topic section_title context
          else pptxContentPrompt topic section_title context) with
      | Except.ok text => (text, k + 1)
      | Except.error e =>
          ("Error generating content: " ++ e
            ++ ". Please check your Gemini API configuration.", k + 1)

/-- Models generate_template_with_gemini (documents_router.py lines 80-109).
Returns the empty list when no API key is configured or when the model call
raises; otherwise splits the response into lines, strips surrounding
whitespace from each line, drops lines that are empty after stripping, and
numbers the survivors with their zero-based position, keeping each line text
otherwise unchanged.  The source branches on document_type when building each
item (lines 102-105) with two identical branches; the branch is kept here. -/
def generate_template_with_gemini (gemini_api_key : Option String) (oracle : GenOracle) (k : Nat)
    (topic document_type : String) : List OutlineItem × Nat :=
  match gemini_api_key with
  | none => ([], k)
  | some _ =>
      match oracle k (if document_type = "docx" then docxTemplatePrompt topic
          else pptxTemplatePrompt topic) with
      | Except.error _ => ([], k + 1)
      | Except.ok text =>
          let titles := ((pySplitLines text).map pyStrip).filter (fun line => line ≠ "")
          (titles.enum.map (fun q =>
            if document_type = "docx" then
              { id := none, title := some q.2, order := some (q.1 : Int) }
            else
              { id := none, title := some q.2, order := some (q.1 : Int) }), k + 1)

deriving instance DecidableEq for Except

/-- Python sorted(items, key=lambda x: x.get("order", 0)): a stable ascending
sort on the order field with default 0 (generate_content lines 160 and 175).
Python sorted is a stable sort by key; insertionSort is stable for the same
tie-breaking, so the two agree on every input. -/
def sortByOrder (items : List OutlineItem) : List OutlineItem :=
  items.insertionSort (fun a b => a.order.getD 0 ≤ b.order.getD 0)

/-- One iteration of the generation loop of generate_content (lines 162-172
for docx, 177-187 for pptx).  The running state is the content dict built so
far, the rolling context string, and the oracle call index.  keyTag is
the section_ or slide_ fallback key stem and untitled the matching default
title. -/
def genStep (gemini_api_key : Option String) (oracle : GenOracle)
    (topic document_type keyTag untitled : String)
    (st : List (String × ContentEntry) × String × Nat) (item : OutlineItem) :
    List (String × ContentEntry) × String × Nat :=
  let sid := item.id.getD (keyTag ++ toString (item.order.getD 0))
  let sectionTitle := item.title.getD untitled
  let gen := generate_content_with_gemini gemini_api_key oracle st.2.2 topic sectionTitle
    document_type st.2.1
  (dictSet st.1 sid
      { title := some sectionTitle, content := some gen.1, order := some (item.order.getD 0) },
    st.2.1 ++ "\n" ++ sectionTitle ++ ": " ++ gen.1.take 200 ++ "...",
    gen.2)

/-- The whole generation loop: a left fold of genStep over the sorted items,
starting from the empty dict, the empty context, and the incoming call
index. -/
def genLoop (gemini_api_key : Option String) (oracle : GenOracle)
    (topic document_type keyTag untitled : String)
    (items : List OutlineItem) (st : List (String × ContentEntry) × String × Nat) :
    List (String × ContentEntry) × String × Nat :=
  items.foldl (genStep gemini_api_key oracle topic document_type keyTag untitled) st

/-- Models the generate_content endpoint (POST /{project_id}/generate-content,
documents_router.py lines 134-195).  proj is the fetched store document (none
when it does not exist) and now stands for datetime.utcnow().isoformat().  The
handler rebuilds the content dict from scratch (content = \x7b\x7d at line
155), iterating the outline (docx) or the slides (pptx) in ascending order and
generating every entry; it then writes content and updated_at back.  An ok
result carries the written-back project and the advanced call index; an error
models the HTTPException raised before any write. -/
def generate_content (gemini_api_key : Option String) (oracle : GenOracle)
    (user_id : String) (proj : Option Project) (now : String) (k : Nat) :
    Except HTTPError (Project × Nat) :=
  match proj with
  | none => Except.error { status := 404, detail := "Project not found" }
  | some p =>
      if p.user_id ≠ user_id then Except.error { status := 403, detail := "Access denied" }
      else
        let items := if p.document_type = "docx" then p.outline else p.slides
        let keyTag := if p.document_type = "docx" then "section_" else "slide_"
        let untitled := if p.document_type = "docx" then "Untitled Section" else "Untitled Slide"
        let res := genLoop gemini_api_key oracle p.topic p.document_type keyTag untitled
          (sortByOrder items) ([], "", k)
        Except.ok ({ p with content := res.1, updated_at := now }, res.2.2)

/-- Models the get_project endpoint (GET /api/projects/{project_id},
projects_router.py lines 82-101): 404 when the document does not exist, 403
when the caller does not own it, otherwise the project data. -/
def get_project (user_id : String) (proj : Option Project) : Except HTTPError Project :=
  match proj with
  | none => Except.error { status := 404, detail := "Project not found" }
  | some p =>
      if p.user_id ≠ user_id then Except.error { status := 403, detail := "Access denied" }
      else Except.ok p

/-- Models the get_projects endpoint (GET /api/projects/, projects_router.py
lines 64-80): the store is the projects collection as a list of (document id,
data) pairs; the where clause keeps the documents whose user_id equals the
caller uid, and the result is sorted by updated_at with reverse=True, a stable
descending sort on the ISO timestamp string. -/
def get_projects (user_id : String) (store : List (String × Project)) :
    List (String × Project) :=
  (store.filter (fun d => d.2.user_id = user_id)).insertionSort
    (fun a b => b.2.updated_at ≤ a.2.updated_at)

/-- One block of the generated Word document: doc.add_heading(text, level) or
doc.add_paragraph(text). -/
inductive DocxBlock where
  | heading (level : Nat) (text : String)
  | para (text : String)
deriving DecidableEq

/-- One slide of the generated PowerPoint file: the title placeholder text and
the body placeholder text. -/
structure PptxSlide where
  title : String
  body : String
deriving DecidableEq

/-- The streamed export payload: the rendered document, the media type of the
response, and the filename used in the Content-Disposition header. -/
inductive ExportResult where
  | docxFile (blocks : List DocxBlock) (media_type : String) (filename : String)
  | pptxFile (slides : List PptxSlide) (media_type : String) (filename : String)
deriving DecidableEq

/-- The blocks of a docx export result (empty for a pptx result). -/
def exportBlocks : ExportResult → List DocxBlock
  | ExportResult.docxFile blocks _ _ => blocks
  | ExportResult.pptxFile _ _ _ => []

/-- Python sorted(content.items(), key=lambda x: x[1].get("order", 0)) used by
export_document (lines 370 and 394): a stable ascending sort of the content
dict items on each value order field. -/
def sortContentItems (content : List (String × ContentEntry)) :
    List (String × ContentEntry) :=
  content.insertionSort (fun a b => a.2.order.getD 0 ≤ b.2.order.getD 0)

/-- Models the export_document endpoint (GET /{project_id}/export,
documents_router.py lines 341-421).  The docx branch emits a level-0 heading
with the project topic, then, for each content dict item sorted by its order
field, a level-1 heading with the entry title and one paragraph holding the
entry content string verbatim (doc.add_paragraph at line 374); the outline and
slides fields of the project are never read.  The pptx branch makes one slide
per content dict item, with the entry content string as the body text. -/
def export_document (user_id : String) (proj : Option Project) :
    Except HTTPError ExportResult :=
  match proj with
  | none => Except.error { status := 404, detail := "Project not found" }
  | some p =>
      if p.user_id ≠ user_id then Except.error { status := 403, detail := "Access denied" }
      else if p.document_type = "docx" then
        Except.ok (ExportResult.docxFile
          (DocxBlock.heading 0 p.topic ::
            (sortContentItems p.content).flatMap (fun q =>
              [DocxBlock.heading 1 (q.2.title.getD "Untitled"),
               DocxBlock.para (q.2.content.getD "")]))
          "application/vnd.openxmlformats-officedocument.wordprocessingml.document"
          (p.name ++ ".docx"))
      else
        Except.ok (ExportResult.pptxFile
          ((sortContentItems p.content).map (fun q =>
            { title := q.2.title.getD "Untitled", body := q.2.content.getD "" }))
          "application/vnd.openxmlformats-officedocument.presentationml.presentation"
          (p.name ++ ".pptx"))

/-- Models the refine_content endpoint (POST /{project_id}/refine,
documents_router.py lines 197-268).  After reading the caller uid, line 206
evaluates doc_ref = db.collection("projects").document(project_id), but no
global named db is defined or imported anywhere in documents_router.py (every
other handler calls get_db()), so this line raises NameError on every request
before the store is touched, and FastAPI answers 500.  No later line of the
handler body is reachable. -/
def refine_content (gemini_api_key : Option String) (oracle : GenOracle) (k : Nat)
    (user_id : String) (proj : Option Project) (refinement : RefinementRequest)
    (now : String) : Except PyError (Project × Nat) :=
  Except.error (PyError.nameError "db")

/-- Models, from the source text, the unreachable remainder of refine_content
(documents_router.py lines 207-268) as it would run on a fetched document if
line 206 used get_db() like every other handler: the evident intent of the
handler, blocked at runtime by the undefined db global modelled in
refine_content.  The section lookup precedes any write; the refinement path
overwrites the section content in place and appends exactly one history entry
of type refinement holding the instruction verbatim. -/
def refine_content_body (gemini_api_key : Option String) (oracle : GenOracle) (k : Nat)
    (user_id : String) (proj : Option Project) (refinement : RefinementRequest)
    (now : String) : Except HTTPError (Project × Nat) :=
  match proj with
  | none => Except.error { status := 404, detail := "Project not found" }
  | some p =>
      if p.user_id ≠ user_id then Except.error { status := 403, detail := "Access denied" }
      else
        match dictGet p.content refinement.section_id with
        | none => Except.error { status := 404, detail := "Section not found" }
        | some sd =>
            let original_content := sd.content.getD ""
            let section_title := sd.title.getD ""
            let gen : String × Nat :=
              match gemini_api_key with
              | some _ =>
                  match oracle k (refinePrompt refinement.prompt section_title p.topic
                      original_content) with
                  | Except.ok text => (text, k + 1)
                  | Except.error e => ("Error refining content: " ++ e, k + 1)
              | none =>
                  (original_content ++ "\n\n[Refined based on: " ++ refinement.prompt ++ "]", k)
            let content2 := p.content.map (fun q =>
              if q.1 = refinement.section_id then (q.1, { q.2 with content := some gen.1 })
              else q)
            let hist2 := p.refinement_history ++
              [{ section_id := refinement.section_id, prompt := some refinement.prompt,
                 feedback_type := none, comment := none, timestamp := now,
                 etype := "refinement" }]
            let p2 : Project :=
              { p with content := content2, refinement_history := hist2, updated_at := now }
            Except.ok (p2, gen.2)

/-- A generation oracle whose call number j answers with the text vj; makes
consecutive model calls observable in concrete runs. -/
def oracleIdx : GenOracle := fun j _ => Except.ok ("v" ++ toString j)

/-- A generation oracle whose first call raises with message boom and whose
later calls answer fine. -/
def oracleFail0 : GenOracle :=
  fun j _ => if j = 0 then Except.error "boom" else Except.ok "fine"

/-- A generation oracle that always answers with two bullet-prefixed lines. -/
def oracleBullets : GenOracle := fun _ _ => Except.ok "* Intro\n- Body"

/-- A generation oracle that always answers with lines carrying surrounding
whitespace and one blank line. -/
def oracleLines : GenOracle := fun _ _ => Except.ok "A\n B \n\nC"

/-- A generation oracle whose every call raises with message boom. -/
def oracleErr : GenOracle := fun _ _ => Except.error "boom"

/-- The error string generate_content_with_gemini stores when the model call
raises with message boom. -/
def errBoom : String :=
  "Error generating content: boom. Please check your Gemini API configuration."

/-- A docx project owned by u with one outline item carrying the id a and an
empty content map. -/
def projA : Project :=
  { name := "n", document_type := "docx", topic := "t", user_id := "u",
    outline := [{ id := some "a", title := some "T", order := some 0 }],
    slides := [], content := [], refinement_history := [],
    created_at := "c0", updated_at := "e0" }

/-- The state written back by the first generate_content call on projA with
oracleIdx starting at call index 0. -/
def projA1 : Project :=
  { projA with
    content := [("a", { title := some "T", content := some "v0", order := some 0 })],
    updated_at := "t1" }

/-- The state written back by the second generate_content call, on projA1 with
oracleIdx continuing at call index 1. -/
def projA2 : Project :=
  { projA1 with
    content := [("a", { title := some "T", content := some "v1", order := some 0 })],
    updated_at := "t2" }

/-- A docx project owned by u with two outline items, the second lacking an
id. -/
def projB : Project :=
  { name := "n", document_type := "docx", topic := "t", user_id := "u",
    outline := [{ id := some "a", title := some "T1", order := some 0 },
                { id := none, title := some "T2", order := some 1 }],
    slides := [], content := [], refinement_history := [],
    created_at := "c0", updated_at := "e0" }

/-- The state written back by generate_content on projB with oracleFail0: the
first model call raises, so the first entry stores the error string; the
second item is still processed and the id-less item is keyed section_1. -/
def projB1 : Project :=
  { projB with
    content := [("a", { title := some "T1", content := some errBoom, order := some 0 }),
                ("section_1", { title := some "T2", content := some "fine", order := some 1 })],
    updated_at := "t1" }

/-- A docx project owned by u whose only outline item lacks an id. -/
def projC : Project :=
  { name := "n", document_type := "docx", topic := "t", user_id := "u",
    outline := [{ id := none, title := some "T", order := some 0 }],
    slides := [], content := [], refinement_history := [],
    created_at := "c0", updated_at := "e0" }

/-- The state written back by generate_content on projC with oracleIdx: the
entry is keyed section_0 and the outline is written back unchanged, its item
still without an id. -/
def projC1 : Project :=
  { projC with
    content := [("section_0", { title := some "T", content := some "v0", order := some 0 })],
    updated_at := "t1" }

/-- A docx project owned by u with one outline item with id x but an empty
content map (nothing generated yet). -/
def projD : Project :=
  { name := "n", document_type := "docx", topic := "t", user_id := "u",
    outline := [{ id := some "x", title := some "T", order := some 0 }],
    slides := [], content := [], refinement_history := [],
    created_at := "c0", updated_at := "e0" }

/-- The docx project of the export scenario of the spec: two outline items
Intro and Details, and a content map keyed a and b holding HTML-tagged
content. -/
def projE : Project :=
  { name := "document", document_type := "docx", topic := "Doc", user_id := "u",
    outline := [{ id := some "a", title := some "Intro", order := some 0 },
                { id := some "b", title := some "Details", order := some 1 }],
    slides := [],
    content := [("a", { title := some "Intro", content := some "<p>Hello</p>", order := some 0 }),
                ("b", { title := some "Details",
                        content := some "<ul><li>x</li><li>y</li></ul>", order := some 1 })],
    refinement_history := [],
    created_at := "c0", updated_at := "e0" }

/-- The blocks the docx export of projE actually produces: each content string
is emitted verbatim as one paragraph, tags included. -/
def blocksE : List DocxBlock :=
  [DocxBlock.heading 0 "Doc",
   DocxBlock.heading 1 "Intro", DocxBlock.para "<p>Hello</p>",
   DocxBlock.heading 1 "Details", DocxBlock.para "<ul><li>x</li><li>y</li></ul>"]

/-- A project owned by alice, used to probe the ownership check with caller
bob. -/
def projF : Project :=
  { name := "n", document_type := "docx", topic := "t", user_id := "alice",
    outline := [], slides := [], content := [], refinement_history := [],
    created_at := "c0", updated_at := "e0" }

/-- Writing a key into a dict leaves that key present. -/
theorem dictHasKey_dictSet_self (d : List (String × α)) (key : String) (v : α) :
    dictHasKey (dictSet d key v) key = true := by
  unfold dictSet
  by_cases h : dictHasKey d key = true
  · rw [if_pos h]
    unfold dictHasKey at h ⊢
    simp only [List.any_eq_true, decide_eq_true_eq] at h ⊢
    obtain ⟨q, hq, hqe⟩ := h
    exact ⟨(key, v), List.mem_map.mpr ⟨q, hq, by rw [if_pos hqe]⟩, rfl⟩
  · rw [if_neg h]
    unfold dictHasKey
    simp

/-- Writing a key into a dict keeps every key that was already present. -/
theorem dictHasKey_dictSet_of (d : List (String × α)) (key key2 : String) (v : α)
    (h : dictHasKey d key2 = true) : dictHasKey (dictSet d key v) key2 = true := by
  unfold dictSet
  by_cases hk : dictHasKey d key = true
  · rw [if_pos hk]
    unfold dictHasKey at h ⊢
    simp only [List.any_eq_true, decide_eq_true_eq] at h ⊢
    obtain ⟨q, hq, hqe⟩ := h
    by_cases hqk : q.1 = key
    · exact ⟨(key, v), List.mem_map.mpr ⟨q, hq, by rw [if_pos hqk]⟩, by
        simp only []
        rw [← hqk, hqe]⟩
    · exact ⟨q, List.mem_map.mpr ⟨q, hq, by rw [if_neg hqk]⟩, hqe⟩
  · rw [if_neg hk]
    unfold dictHasKey at h ⊢
    simp only [List.any_eq_true, decide_eq_true_eq] at h ⊢
    obtain ⟨q, hq, hqe⟩ := h
    exact ⟨q, List.mem_append_left _ hq, hqe⟩

/-- The generation loop never removes a key from the content dict. -/
theorem genLoop_hasKey_mono (gemini_api_key : Option String) (oracle : GenOracle)
    (topic document_type keyTag untitled : String) :
    ∀ (items : List OutlineItem) (st : List (String × ContentEntry) × String × Nat)
      (key2 : String), dictHasKey st.1 key2 = true →
      dictHasKey (genLoop gemini_api_key oracle topic document_type keyTag untitled
        items st).1 key2 = true := by
  intro items
  induction items with
  | nil => intro st key2 h; exact h
  | cons a l ih =>
      intro st key2 h
      have hstep : dictHasKey
          (genStep gemini_api_key oracle topic document_type keyTag untitled st a).1 key2
            = true := by
        simp only [genStep]
        exact dictHasKey_dictSet_of _ _ _ _ h
      exact ih _ key2 hstep

/-- After the generation loop, every processed item has its key (its id, or
the keyTag fallback key derived from its order) present in the content
dict. -/
theorem genLoop_hasKey (gemini_api_key : Option String) (oracle : GenOracle)
    (topic document_type keyTag untitled : String) :
    ∀ (items : List OutlineItem) (st : List (String × ContentEntry) × String × Nat)
      (s : OutlineItem), s ∈ items →
      dictHasKey (genLoop gemini_api_key oracle topic document_type keyTag untitled
        items st).1 (s.id.getD (keyTag ++ toString (s.order.getD 0))) = true := by
  intro items
  induction items with
  | nil => intro st s h; cases h
  | cons a l ih =>
      intro st s hmem
      rcases List.mem_cons.mp hmem with h | h
      · subst h
        have hcons : genLoop gemini_api_key oracle topic document_type keyTag untitled
            (s :: l) st = genLoop gemini_api_key oracle topic document_type keyTag untitled
              l (genStep gemini_api_key oracle topic document_type keyTag untitled st s) := rfl
        rw [hcons]
        apply genLoop_hasKey_mono
        exact dictHasKey_dictSet_self _ _ _
      · exact ih _ s h

/-- With an API key configured, generate_content_with_gemini advances the call
index by exactly one, whether the model call succeeds or raises. -/
theorem generate_content_with_gemini_snd (key : String) (oracle : GenOracle) (k : Nat)
    (topic section_title document_type context : String) :
    (generate_content_with_gemini (some key) oracle k topic section_title document_type
      context).2 = k + 1 := by
  simp only [generate_content_with_gemini]
  cases oracle k (if document_type = "docx" then docxContentPrompt topic section_title context
      else pptxContentPrompt topic section_title context) <;> rfl

/-- With an API key configured, the generation loop makes exactly one model
call per item. -/
theorem genLoop_count (key : String) (oracle : GenOracle)
    (topic document_type keyTag untitled : String) :
    ∀ (items : List OutlineItem) (st : List (String × ContentEntry) × String × Nat),
      (genLoop (some key) oracle topic document_type keyTag untitled items st).2.2
        = st.2.2 + items.length := by
  intro items
  induction items with
  | nil => intro st; rfl
  | cons a l ih =>
      intro st
      have h1 : (genStep (some key) oracle topic document_type keyTag untitled st a).2.2
          = st.2.2 + 1 := by
        simp only [genStep]
        exact generate_content_with_gemini_snd _ _ _ _ _ _ _
      have h2 : genLoop (some key) oracle topic document_type keyTag untitled (a :: l) st
          = genLoop (some key) oracle topic document_type keyTag untitled l
            (genStep (some key) oracle topic document_type keyTag untitled st a) := rfl
      rw [h2, ih, h1, List.length_cons]
      omega

/-- C1 counterexample: a docx project with one outline item with id a and an
empty Content Map; the first generate-content call stores v0 under a and
advances the model-call counter from 0 to 1; calling again with no intervening
edits makes another model call (counter 1 to 2) and overwrites the populated
entry with v1, so the Content Map is changed by the second call and a
generation call was made for an already-populated entry. -/
theorem generateContent_secondCallChanges_C1cex :
    generate_content (some "KEY") oracleIdx "u" (some projA) "t1" 0 = Except.ok (projA1, 1)
    ∧ generate_content (some "KEY") oracleIdx "u" (some projA1) "t2" 1 = Except.ok (projA2, 2)
    ∧ dictGet projA1.content "a"
        = some { title := some "T", content := some "v0", order := some 0 }
    ∧ dictGet projA2.content "a"
        = some { title := some "T", content := some "v1", order := some 0 }
    ∧ decide (projA2.content = projA1.content) = false := by decide

/-- C1 (amended): generate-content does not fill only gaps: it rebuilds the
Content Map from scratch on every call.  Its outcome is independent of the
Content Map already stored on the project (populated entries are ignored and
overwritten, so the second call returns the same map only when the generator
returns the same text), and with an API key configured every call makes
exactly one generation call per outline item, populated or not. -/
theorem generateContent_rebuildsFromScratch_C1 (gemini_api_key : Option String)
    (oracle : GenOracle) (user_id now : String) (k : Nat) (p : Project)
    (c2 : List (String × ContentEntry)) :
    generate_content gemini_api_key oracle user_id (some { p with content := c2 }) now k
      = generate_content gemini_api_key oracle user_id (some p) now k
    ∧ ∀ (key : String) (q : Project) (kq : Nat),
        generate_content (some key) oracle user_id (some p) now k = Except.ok (q, kq) →
        kq = k + (if p.document_type = "docx" then p.outline else p.slides).length := by
  constructor
  · rfl
  · intro key q kq hrun
    by_cases hu : p.user_id = user_id
    · simp only [generate_content, if_neg (not_not_intro hu), Except.ok.injEq,
        Prod.mk.injEq] at hrun
      obtain ⟨-, hkq⟩ := hrun
      rw [← hkq, sortByOrder, genLoop_count, List.length_insertionSort]
    · simp only [generate_content, if_pos hu] at hrun
      exact absurd hrun (by simp)

/-- C1 witness: the amended statement instantiated on projA with the old
content map replaced by an already-populated entry, and the call count of the
concrete run. -/
theorem generateContent_rebuildsFromScratch_C1_witness :
    generate_content (some "KEY") oracleIdx "u"
        (some { projA with
                content := [("a", { title := some "T", content := some "old",
                                    order := some 0 })] }) "t1" 0
      = generate_content (some "KEY") oracleIdx "u" (some projA) "t1" 0
    ∧ (1 : Nat)
        = 0 + (if projA.document_type = "docx" then projA.outline else projA.slides).length := by
  have h := generateContent_rebuildsFromScratch_C1 (some "KEY") oracleIdx "u" "t1" 0 projA
    [("a", { title := some "T", content := some "old", order := some 0 })]
  exact ⟨h.1, h.2 "KEY" projA1 1 (by decide)⟩

/-- C2 counterexample: generate_content on a project whose only outline item
lacks an id stores the generated content under the fallback key section_0, but
the project written back carries the outline unchanged: the item still has no
id, so no non-empty unique id exists in the persisted outline at its
position. -/
theorem generateContent_noIdMinted_C2cex :
    generate_content (some "KEY") oracleIdx "u" (some projC) "t1" 0 = Except.ok (projC1, 1)
    ∧ projC1.outline = projC.outline
    ∧ projC1.outline = [{ id := none, title := some "T", order := some 0 }]
    ∧ dictHasKey projC1.content "section_0" = true := by decide

/-- C2 (amended): an outline item lacking an id is processed under the derived
Content Map key section_ (docx) or slide_ (pptx) followed by its order value;
no id is minted, and the outline and slides sequences written back are exactly
the ones read, so the item still has no id afterwards (and two id-less items
with equal order collide on the same derived key). -/
theorem generateContent_fallbackKey_C2 (gemini_api_key : Option String)
    (oracle : GenOracle) (user_id now : String) (k : Nat) (p q : Project) (kq : Nat)
    (hrun : generate_content gemini_api_key oracle user_id (some p) now k
      = Except.ok (q, kq)) :
    q.outline = p.outline ∧ q.slides = p.slides
    ∧ ∀ s ∈ (if p.document_type = "docx" then p.outline else p.slides), s.id = none →
        dictHasKey q.content
          ((if p.document_type = "docx" then "section_" else "slide_")
            ++ toString (s.order.getD 0)) = true := by
  by_cases hu : p.user_id = user_id
  · simp only [generate_content, if_neg (not_not_intro hu), Except.ok.injEq,
      Prod.mk.injEq] at hrun
    obtain ⟨hq, -⟩ := hrun
    subst hq
    refine ⟨rfl, rfl, ?_⟩
    intro s hs hid
    have hmem : s ∈ sortByOrder (if p.document_type = "docx" then p.outline else p.slides) :=
      ((List.perm_insertionSort _ _).mem_iff).mpr hs
    have h2 := genLoop_hasKey gemini_api_key oracle p.topic p.document_type
      (if p.document_type = "docx" then "section_" else "slide_")
      (if p.document_type = "docx" then "Untitled Section" else "Untitled Slide")
      (sortByOrder (if p.document_type = "docx" then p.outline else p.slides))
      ([], "", k) s hmem
    rw [hid] at h2
    exact h2
  · simp only [generate_content, if_pos hu] at hrun
    exact absurd hrun (by simp)

/-- C2 witness: the amended statement instantiated on the concrete run of
projC, whose only item lacks an id and has order 0. -/
theorem generateContent_fallbackKey_C2_witness :
    projC1.outline = projC.outline ∧ projC1.slides = projC.slides
    ∧ dictHasKey projC1.content "section_0" = true := by
  have h := generateContent_fallbackKey_C2 (some "KEY") oracleIdx "u" "t1" 0 projC projC1 1
    (by decide)
  refine ⟨h.1, h.2.1, ?_⟩
  have h3 := h.2.2 { id := none, title := some "T", order := some 0 } (by decide) rfl
  exact h3

/-- C3 counterexample: projD has one outline item with id x but an empty
Content Map; its export contains only the topic heading.  No id lookup, no
order fallback and no placeholder is produced for the item: the outline is not
consulted at all, and an item without a content entry is silently absent from
the output. -/
theorem export_missingEntrySkipped_C3cex :
    export_document "u" (some projD)
      = Except.ok (ExportResult.docxFile [DocxBlock.heading 0 "t"]
          "application/vnd.openxmlformats-officedocument.wordprocessingml.document"
          "n.docx")
    ∧ projD.outline.isEmpty = false
    ∧ (exportBlocks ((export_document "u" (some projD)).toOption.getD
        (ExportResult.docxFile [] "" ""))).length = 1 := by decide

/-- C3 (amended): the Export Renderer never reads the outline: its output is
invariant under replacing the outline and slides, and for a docx project it
renders exactly the Content Map entries themselves, sorted by their order
field, as a heading and a verbatim paragraph each, after the topic heading.
Outline items without a content entry yield nothing (no placeholder), and
entries are not resolved by item id at all. -/
theorem export_ignoresOutline_C3 (user_id : String) (p : Project)
    (outline2 slides2 : List OutlineItem) :
    export_document user_id (some { p with outline := outline2, slides := slides2 })
      = export_document user_id (some p)
    ∧ (p.user_id = user_id → p.document_type = "docx" →
        export_document user_id (some p) = Except.ok (ExportResult.docxFile
          (DocxBlock.heading 0 p.topic :: (sortContentItems p.content).flatMap (fun q =>
            [DocxBlock.heading 1 (q.2.title.getD "Untitled"),
             DocxBlock.para (q.2.content.getD "")]))
          "application/vnd.openxmlformats-officedocument.wordprocessingml.document"
          (p.name ++ ".docx"))) := by
  constructor
  · rfl
  · intro hu hd
    simp only [export_document, if_neg (not_not_intro hu), if_pos hd]

/-- C3 witness: the amended statement instantiated on projE: replacing its
outline by an unrelated one does not change the export, and the export is the
sorted Content Map rendered directly. -/
theorem export_ignoresOutline_C3_witness :
    export_document "u" (some { projE with outline := [], slides := [] })
      = export_document "u" (some projE)
    ∧ export_document "u" (some projE) = Except.ok (ExportResult.docxFile
        (DocxBlock.heading 0 projE.topic :: (sortContentItems projE.content).flatMap (fun q =>
          [DocxBlock.heading 1 (q.2.title.getD "Untitled"),
           DocxBlock.para (q.2.content.getD "")]))
        "application/vnd.openxmlformats-officedocument.wordprocessingml.document"
        (projE.name ++ ".docx")) := by
  have h := export_ignoresOutline_C3 "u" projE [] []
  exact ⟨h.1, h.2 rfl rfl⟩

/-- C4 counterexample: exporting the scenario project (items Intro and
Details, content with <p> and <ul><li> markup) produces the raw strings as
single paragraphs; no paragraph Hello and no bulleted paragraphs x and y
appear anywhere in the document, so the HTML subset is not mapped to styled
runs. -/
theorem export_rawHtml_C4cex :
    export_document "u" (some projE)
      = Except.ok (ExportResult.docxFile blocksE
          "application/vnd.openxmlformats-officedocument.wordprocessingml.document"
          "document.docx")
    ∧ blocksE.any (fun b => decide (b = DocxBlock.para "Hello")) = false
    ∧ blocksE.any (fun b => decide (b = DocxBlock.para "x")) = false
    ∧ blocksE.any (fun b => decide (b = DocxBlock.para "y")) = false := by decide

/-- C4 (amended): exporting the scenario project yields heading Intro followed
by one paragraph whose text is the raw string <p>Hello</p>, and heading
Details followed by one paragraph whose text is the raw string
<ul><li>x</li><li>y</li></ul>: the content strings are emitted verbatim as
single paragraphs, tags included, with no paragraph, bullet or bold
interpretation. -/
theorem export_rawHtmlBlocks_C4 :
    exportBlocks ((export_document "u" (some projE)).toOption.getD
        (ExportResult.docxFile [] "" ""))
      = [DocxBlock.heading 0 "Doc",
         DocxBlock.heading 1 "Intro", DocxBlock.para "<p>Hello</p>",
         DocxBlock.heading 1 "Details",
         DocxBlock.para "<ul><li>x</li><li>y</li></ul>"] := by decide

/-- C5 (code bug at the failing input): every call of the refine handler,
whatever the section id, evaluates the undefined global db at line 206 and
fails with NameError before the store is read, so a non-existent section id is
never answered with the 404 Section not found rejection built at lines
220-221.  Nothing is written, so the history log is indeed untouched, but the
failure mode the claim states never occurs. -/
theorem refine_nameError_C5 (gemini_api_key : Option String) (oracle : GenOracle)
    (k : Nat) (user_id : String) (proj : Option Project)
    (refinement : RefinementRequest) (now : String) :
    refine_content gemini_api_key oracle k user_id proj refinement now
      = Except.error (PyError.nameError "db") := rfl

/-- C6 (code bug at the failing input): no refine call ever succeeds — the
NameError of line 206 precedes the section lookup, the content overwrite and
the history append — so the successful refinement the claim describes is
unreachable in the handler as written. -/
theorem refine_neverSucceeds_C6 (gemini_api_key : Option String) (oracle : GenOracle)
    (k : Nat) (user_id : String) (proj : Option Project)
    (refinement : RefinementRequest) (now : String) :
    (refine_content gemini_api_key oracle k user_id proj refinement now).toOption
      = none := rfl

/-- In the unreachable handler body (the evident intent of refine_content), a
section id absent from the Content Map is rejected with 404 Section not found
before any content or history write. -/
theorem refine_content_body_missingSection (gemini_api_key : Option String)
    (oracle : GenOracle) (k : Nat) (user_id : String) (p : Project)
    (refinement : RefinementRequest) (now : String)
    (hu : p.user_id = user_id)
    (hmiss : dictGet p.content refinement.section_id = none) :
    refine_content_body gemini_api_key oracle k user_id (some p) refinement now
      = Except.error { status := 404, detail := "Section not found" } := by
  simp only [refine_content_body, if_neg (not_not_intro hu), hmiss]

/-- In the unreachable handler body, a successful refinement appends exactly
one history entry, of type refinement, holding the caller instruction
verbatim, after the existing log. -/
theorem refine_content_body_appendsOne (gemini_api_key : Option String)
    (oracle : GenOracle) (k : Nat) (user_id : String) (p : Project)
    (refinement : RefinementRequest) (now : String)
    (hu : p.user_id = user_id) :
    ∀ q kq, refine_content_body gemini_api_key oracle k user_id (some p) refinement now
        = Except.ok (q, kq) →
      q.refinement_history = p.refinement_history ++
        [{ section_id := refinement.section_id, prompt := some refinement.prompt,
           feedback_type := none, comment := none, timestamp := now,
           etype := "refinement" }] := by
  intro q kq h
  simp only [refine_content_body, if_neg (not_not_intro hu)] at h
  cases hfind : dictGet p.content refinement.section_id with
  | none =>
      rw [hfind] at h
      exact absurd h (by simp)
  | some sd =>
      rw [hfind] at h
      simp only [Except.ok.injEq, Prod.mk.injEq] at h
      obtain ⟨hq, -⟩ := h
      rw [← hq]

/-- C7 counterexample: with a model answer of two bullet-prefixed lines, the
parsed template keeps the leading markdown characters in the titles: nothing
strips a leading star or dash, so the titles are not Intro and Body. -/
theorem template_keepsBullets_C7cex :
    (generate_template_with_gemini (some "KEY") oracleBullets 0 "t" "docx").1
      = [{ id := none, title := some "* Intro", order := some 0 },
         { id := none, title := some "- Body", order := some 1 }]
    ∧ decide ((generate_template_with_gemini (some "KEY") oracleBullets 0 "t" "docx").1.map
        (fun s => s.title) = [some "Intro", some "Body"]) = false := by decide

/-- C7 (amended): the template generator parses the model text into lines,
strips surrounding whitespace only (leading star and dash bullet characters
are kept), drops lines that are empty after stripping, assigns order equal to
the zero-based position, and returns the empty sequence, not an error, when no
API key is configured or the model call raises. -/
theorem template_trimsWhitespaceOnly_C7 (oracle : GenOracle) (k : Nat)
    (topic document_type key : String) :
    generate_template_with_gemini none oracle k topic document_type = ([], k)
    ∧ (∀ e, oracle k (if document_type = "docx" then docxTemplatePrompt topic
          else pptxTemplatePrompt topic) = Except.error e →
        generate_template_with_gemini (some key) oracle k topic document_type = ([], k + 1))
    ∧ (∀ text, oracle k (if document_type = "docx" then docxTemplatePrompt topic
          else pptxTemplatePrompt topic) = Except.ok text →
        (generate_template_with_gemini (some key) oracle k topic document_type).1.map
            (fun s => s.title)
          = (((pySplitLines text).map pyStrip).filter (fun line => line ≠ "")).map
              (fun line => some line)
        ∧ (generate_template_with_gemini (some key) oracle k topic document_type).1.map
            (fun s => s.order)
          = (List.range (((pySplitLines text).map pyStrip).filter
              (fun line => line ≠ "")).length).map (fun i : Nat => some (i : Int))) := by
  refine ⟨rfl, ?_, ?_⟩
  · intro e he
    simp only [generate_template_with_gemini, he]
  · intro text ht
    simp only [generate_template_with_gemini, ht]
    constructor
    · rw [List.map_map]
      have hcomp : ((fun s : OutlineItem => s.title) ∘ (fun q : Nat × String =>
          if document_type = "docx" then
            ({ id := none, title := some q.2, order := some (q.1 : Int) } : OutlineItem)
          else { id := none, title := some q.2, order := some (q.1 : Int) }))
          = (fun q : Nat × String => some q.2) := by
        funext q
        by_cases h : document_type = "docx" <;> simp [h]
      rw [hcomp]
      have h2 : (fun q : Nat × String => some q.2) = (Option.some ∘ Prod.snd) := rfl
      rw [h2, ← List.map_map, List.enum_map_snd]
    · rw [List.map_map]
      have hcomp : ((fun s : OutlineItem => s.order) ∘ (fun q : Nat × String =>
          if document_type = "docx" then
            ({ id := none, title := some q.2, order := some (q.1 : Int) } : OutlineItem)
          else { id := none, title := some q.2, order := some (q.1 : Int) }))
          = (fun q : Nat × String => some ((q.1 : Int))) := by
        funext q
        by_cases h : document_type = "docx" <;> simp [h]
      rw [hcomp]
      have h2 : (fun q : Nat × String => some ((q.1 : Int)))
          = ((fun i : Nat => some (i : Int)) ∘ Prod.fst) := rfl
      rw [h2, ← List.map_map, List.enum_map_fst]

/-- C7 witness: the amended statement instantiated on a model answer with
whitespace-padded lines and a blank line, on a raising oracle, and on a
missing API key. -/
theorem template_trimsWhitespaceOnly_C7_witness :
    generate_template_with_gemini none oracleLines 0 "t" "docx" = ([], 0)
    ∧ generate_template_with_gemini (some "KEY") oracleErr 0 "t" "docx" = ([], 1)
    ∧ (generate_template_with_gemini (some "KEY") oracleLines 0 "t" "docx").1.map
        (fun s => s.title) = [some "A", some "B", some "C"]
    ∧ (generate_template_with_gemini (some "KEY") oracleLines 0 "t" "docx").1.map
        (fun s => s.order) = [some 0, some 1, some 2] := by
  have h1 := template_trimsWhitespaceOnly_C7 oracleLines 0 "t" "docx" "KEY"
  have h2 := template_trimsWhitespaceOnly_C7 oracleErr 0 "t" "docx" "KEY"
  refine ⟨h1.1, h2.2.1 "boom" rfl, ?_, ?_⟩
  · have h3 := (h1.2.2 "A\n B \n\nC" rfl).1
    rw [h3]
    decide
  · have h4 := (h1.2.2 "A\n B \n\nC" rfl).2
    rw [h4]
    decide

/-- C8: a generation failure for one item never aborts the batch.  Whenever
generate_content succeeds (the ownership check is the only failure), the
Content Map written back has an entry for every outline item, under its id or
its derived fallback key, for every oracle — including oracles that raise on
some or all calls; and a raising model call makes generate_content_with_gemini
return the deterministic error string as the stored content rather than
propagating the failure. -/
theorem generateContent_failureTolerant_C8 (gemini_api_key : Option String)
    (oracle : GenOracle) (user_id now : String) (k : Nat) (p q : Project) (kq : Nat)
    (hrun : generate_content gemini_api_key oracle user_id (some p) now k
      = Except.ok (q, kq)) :
    (∀ s ∈ (if p.document_type = "docx" then p.outline else p.slides),
        dictHasKey q.content
          (s.id.getD ((if p.document_type = "docx" then "section_" else "slide_")
            ++ toString (s.order.getD 0))) = true)
    ∧ ∀ (key : String) (k2 : Nat) (topic2 title2 dtype2 ctx2 e : String),
        oracle k2 (if dtype2 = "docx" then docxContentPrompt topic2 title2 ctx2
          else pptxContentPrompt topic2 title2 ctx2) = Except.error e →
        (generate_content_with_gemini (some key) oracle k2 topic2 title2 dtype2 ctx2).1
          = "Error generating content: " ++ e
            ++ ". Please check your Gemini API configuration." := by
  constructor
  · by_cases hu : p.user_id = user_id
    · simp only [generate_content, if_neg (not_not_intro hu), Except.ok.injEq,
        Prod.mk.injEq] at hrun
      obtain ⟨hq, -⟩ := hrun
      subst hq
      intro s hs
      have hmem : s ∈ sortByOrder (if p.document_type = "docx" then p.outline
          else p.slides) := ((List.perm_insertionSort _ _).mem_iff).mpr hs
      exact genLoop_hasKey gemini_api_key oracle p.topic p.document_type
        (if p.document_type = "docx" then "section_" else "slide_")
        (if p.document_type = "docx" then "Untitled Section" else "Untitled Slide")
        (sortByOrder (if p.document_type = "docx" then p.outline else p.slides))
        ([], "", k) s hmem
    · simp only [generate_content, if_pos hu] at hrun
      exact absurd hrun (by simp)
  · intro key k2 topic2 title2 dtype2 ctx2 e he
    simp only [generate_content_with_gemini, he]

/-- C8 witness: the concrete run of projB with an oracle raising on its first
call: both items (the second lacking an id) have entries afterwards, the
failed item storing the error string and the other the generated text. -/
theorem generateContent_failureTolerant_C8_witness :
    (dictHasKey projB1.content "a" = true ∧ dictHasKey projB1.content "section_1" = true)
    ∧ (generate_content_with_gemini (some "KEY") oracleFail0 0 "t" "T1" "docx" "").1 = errBoom
    ∧ dictGet projB1.content "a"
        = some { title := some "T1", content := some errBoom, order := some 0 }
    ∧ dictGet projB1.content "section_1"
        = some { title := some "T2", content := some "fine", order := some 1 } := by
  have h := generateContent_failureTolerant_C8 (some "KEY") oracleFail0 "u" "t1" 0
    projB projB1 2 (by decide)
  refine ⟨⟨?_, ?_⟩, ?_, by decide, by decide⟩
  · exact h.1 { id := some "a", title := some "T1", order := some 0 } (by decide)
  · exact h.1 { id := none, title := some "T2", order := some 1 } (by decide)
  · exact h.2 "KEY" 0 "t" "T1" "docx" "" "boom" rfl

/-- C9 counterexample: a project owned by alice, accessed by bob: get_project,
generate_content and export_document all reject with 403 Access denied, while
a missing project is rejected with 404 Project not found — the two rejections
are distinct, not a uniform 404. -/
theorem ownership403_C9cex :
    get_project "bob" (some projF) = Except.error { status := 403, detail := "Access denied" }
    ∧ generate_content (some "KEY") oracleIdx "bob" (some projF) "t1" 0
        = Except.error { status := 403, detail := "Access denied" }
    ∧ export_document "bob" (some projF)
        = Except.error { status := 403, detail := "Access denied" }
    ∧ get_project "bob" none = Except.error { status := 404, detail := "Project not found" }
    ∧ decide ((403 : Nat) = 404) = false := by decide

/-- C9 (amended): every modelled project-scoped operation distinguishes the
two failures: a missing project is rejected with 404 Project not found, and an
existing project owned by another user is rejected with 403 Access denied; in
both cases the operation returns an error, so it terminates without writing
any state. -/
theorem ownershipChecks_C9 (user_id : String) (p : Project)
    (gemini_api_key : Option String) (oracle : GenOracle) (now : String) (k : Nat) :
    (get_project user_id none = Except.error { status := 404, detail := "Project not found" }
      ∧ generate_content gemini_api_key oracle user_id none now k
          = Except.error { status := 404, detail := "Project not found" }
      ∧ export_document user_id none
          = Except.error { status := 404, detail := "Project not found" })
    ∧ (p.user_id ≠ user_id →
        get_project user_id (some p)
            = Except.error { status := 403, detail := "Access denied" }
        ∧ generate_content gemini_api_key oracle user_id (some p) now k
            = Except.error { status := 403, detail := "Access denied" }
        ∧ export_document user_id (some p)
            = Except.error { status := 403, detail := "Access denied" }) := by
  refine ⟨⟨rfl, rfl, rfl⟩, ?_⟩
  intro hne
  exact ⟨by simp only [get_project, if_pos hne],
         by simp only [generate_content, if_pos hne],
         by simp only [export_document, if_pos hne]⟩

/-- C9 witness: the amended statement instantiated on caller bob and the
alice-owned project. -/
theorem ownershipChecks_C9_witness :
    get_project "bob" (some projF)
        = Except.error { status := 403, detail := "Access denied" }
    ∧ export_document "bob" none
        = Except.error { status := 404, detail := "Project not found" } := by
  have h := ownershipChecks_C9 "bob" projF (some "KEY") oracleIdx "t1" 0
  exact ⟨(h.2 (by decide)).1, h.1.2.2⟩

/-- C10: list-projects returns exactly the stored documents whose user_id
equals the caller uid (a permutation of the filtered store, so never another
a project of another user), sorted by the updated_at string in descending
lexicographic order. -/
theorem getProjects_ownFilterSortedDesc_C10 (user_id : String)
    (store : List (String × Project)) :
    List.Perm (get_projects user_id store)
        (store.filter (fun d => d.2.user_id = user_id))
    ∧ (get_projects user_id store).Pairwise
        (fun a b => b.2.updated_at ≤ a.2.updated_at) := by
  constructor
  · exact List.perm_insertionSort _ _
  · haveI hTot : IsTotal (String × Project)
        (fun a b => b.2.updated_at ≤ a.2.updated_at) :=
      ⟨fun a b => le_total b.2.updated_at a.2.updated_at⟩
    haveI hTrans : IsTrans (String × Project)
        (fun a b => b.2.updated_at ≤ a.2.updated_at) :=
      ⟨fun a b c hab hbc => le_trans hbc hab⟩
    exact List.sorted_insertionSort _ _
